import Mathlib

/-!
Verification of the `template_update` Home Assistant custom integration
(`custom_components/template_update/__init__.py`, `update.py`, `const.py`).

The integration is glue code over a host platform: every interesting effect
(template rendering, service dispatch) is delegated to the host.  The
embedding therefore models Python values, the dictionary operations the code
performs on configurations, and the host as an oracle (`Host`) supplying a
render function and a service-dispatch outcome.  Entity methods become pure
functions of the entity state and the host oracle; a Python exception that
escapes a method is an `Except.error` / `InstallResult.raised` result, while
a caught exception is folded into the normal return value exactly where the
`except` clauses of the source do so.
-/

set_option autoImplicit false

/-- Python values as they occur in this integration's configurations and
rendered data: scalars, strings, lists and string-keyed dicts (YAML/config
dict keys are strings here). -/
inductive PyVal where
  | none
  | bool (b : Bool)
  | int (n : Int)
  | str (s : String)
  | list (xs : List PyVal)
  | dict (xs : List (String × PyVal))

/-- A Python dict with string keys, as an association list in insertion
order (Python dicts preserve insertion order and have unique keys). -/
abbrev PyDict := List (String × PyVal)

/-- The Python exception classes relevant to the source: the ones its
`except` clauses name (`ValueError`, `TypeError`,
`homeassistant.exceptions.TemplateError`), the ones its operations can raise
(`KeyError` from subscripting, `AttributeError` from a missing method,
`ValueError` from tuple unpacking), and a catch-all for any other class.
These classes are pairwise unrelated by subclassing in Python/Home
Assistant (in particular `TemplateError` derives from `HomeAssistantError`,
not from `ValueError` or `TypeError`). -/
inductive PyExc where
  | valueError
  | typeError
  | templateError
  | keyError
  | attributeError
  | other
deriving DecidableEq, Repr

/-- Python truthiness (`bool(x)`): `None`, `False`, `0`, `""` and empty
containers are falsy. -/
def pyTruthy : PyVal → Bool
  | .none => false
  | .bool b => b
  | .int n => n != 0
  | .str s => s != ""
  | .list xs => !xs.isEmpty
  | .dict xs => !xs.isEmpty

/-- Truthiness of an optional value, modelling `if config.get(key):` where
a missing key yields `None` (falsy). -/
def pyTruthyOpt : Option PyVal → Bool
  | Option.none => false
  | some v => pyTruthy v

/-- The single-quote character used by Python `repr` of strings. -/
def pyQuote : String := String.singleton (Char.ofNat 39)

mutual
/-- Python `repr`, used by `str` on containers.  String escaping inside
`repr` is not modelled (no claim depends on it); quoting and container
layout follow CPython. -/
def pyRepr : PyVal → String
  | .none => "None"
  | .bool true => "True"
  | .bool false => "False"
  | .int n => toString n
  | .str s => pyQuote ++ s ++ pyQuote
  | .list xs => "[" ++ pyReprItems xs ++ "]"
  | .dict xs => "\x7b" ++ pyReprFields xs ++ "\x7d"

/-- Comma-separated `repr`s of list items. -/
def pyReprItems : List PyVal → String
  | [] => ""
  | [v] => pyRepr v
  | v :: rest => pyRepr v ++ ", " ++ pyReprItems rest

/-- Comma-separated `repr`s of dict entries. -/
def pyReprFields : List (String × PyVal) → String
  | [] => ""
  | [(k, v)] => pyQuote ++ k ++ pyQuote ++ ": " ++ pyRepr v
  | (k, v) :: rest =>
    pyQuote ++ k ++ pyQuote ++ ": " ++ pyRepr v ++ ", " ++ pyReprFields rest
end

/-- Python `str(x)`: identity on strings, `True`/`False`/`None` spellings,
decimal integers, `repr` layout for containers. -/
def pyStr : PyVal → String
  | .none => "None"
  | .bool true => "True"
  | .bool false => "False"
  | .int n => toString n
  | .str s => s
  | .list xs => "[" ++ pyReprItems xs ++ "]"
  | .dict xs => "\x7b" ++ pyReprFields xs ++ "\x7d"

/-- `d.get(k)` / `d[k]` lookup: first (unique) entry with key `k`. -/
def dictGet (d : PyDict) (k : String) : Option PyVal :=
  match d with
  | [] => Option.none
  | (k2, v) :: rest => if k2 = k then some v else dictGet rest k

/-- `k in d` membership test. -/
def dictMem (d : PyDict) (k : String) : Bool :=
  match d with
  | [] => false
  | (k2, _) :: rest => if k2 = k then true else dictMem rest k

/-- `d[k] = v` assignment: overwrite in place, or append a new entry. -/
def dictSet (d : PyDict) (k : String) (v : PyVal) : PyDict :=
  match d with
  | [] => [(k, v)]
  | (k2, v2) :: rest => if k2 = k then (k, v) :: rest else (k2, v2) :: dictSet rest k v

/-- `d.update(other)`: assign each entry of `other` into `d` in order. -/
def dictUpdate (d : PyDict) : PyDict → PyDict
  | [] => d
  | (k, v) :: rest => dictUpdate (dictSet d k v) rest

/-- `x[k]` subscripting with a string key on an arbitrary value: dicts look
the key up (`KeyError` when absent); every other value raises `TypeError`
(strings and lists require integer indices, scalars are not subscriptable). -/
def pySubscriptStr : PyVal → String → Except PyExc PyVal
  | .dict d, k =>
    match dictGet d k with
    | some v => Except.ok v
    | Option.none => Except.error PyExc.keyError
  | _, _ => Except.error PyExc.typeError

/-- `x.get(k, default)` on an arbitrary value: defined on dicts, raises
`AttributeError` elsewhere. -/
def pyGetMethod : PyVal → String → PyVal → Except PyExc PyVal
  | .dict d, k, dflt => Except.ok ((dictGet d k).getD dflt)
  | _, _, _ => Except.error PyExc.attributeError

/-- Scan for the first dot: accumulates the (reversed) prefix until a dot
is found, yielding the text before it and the untouched remainder. -/
def splitOnceAux (acc : List Char) : List Char → Option (String × String)
  | [] => Option.none
  | c :: rest =>
    if c = '.' then some (String.mk acc.reverse, String.mk rest)
    else splitOnceAux (c :: acc) rest

/-- `s.split(".", 1)` followed by unpacking into two names: `Option.none`
when `s` contains no dot (the unpacking then raises `ValueError`), otherwise
the text before the first dot and the remainder. -/
def splitOnce (s : String) : Option (String × String) :=
  splitOnceAux [] s.data

/-- Whether an `Except` result is a normal return (no exception). -/
def exOk {ε α : Type} : Except ε α → Bool
  | .ok _ => true
  | .error _ => false

/-- The host platform, as an oracle: `render t vars` is the outcome of
`Template(t, hass).async_render(vars)` (a rendered Python value, or an
exception of some class), and `dispatchResult domain service data` is the
outcome of `hass.services.async_call(domain, service, data)` (`none` for
success, an exception class otherwise).  The rendering semantics themselves
are owned by the host and left abstract. -/
structure Host where
  render : String → PyDict → Except PyExc PyVal
  dispatchResult : String → String → PyDict → Option PyExc

/-- A compiled `homeassistant.helpers.template.Template`, identified by its
source string (the bound `hass` is part of the host oracle). -/
structure Template where
  source : String

/-- The `UpdateEntityFeature` flags that `TemplateUpdateEntity.__init__`
can set. -/
structure UpdateFeatures where
  install : Bool
  specific_version : Bool
  release_notes : Bool
deriving DecidableEq, Repr

/-- `TemplateUpdateEntity` state after `__init__` (`update.py`, lines
35-92): the raw configuration, the attributes assigned from it, and one
compiled template per version/metadata field.  `hass` is not stored; it only
binds templates to the host, which the embedding passes as the `Host`
oracle at each call. -/
structure TemplateUpdateEntity where
  _config : PyDict
  _attr_name : Option PyVal
  _attr_unique_id : Option PyVal
  _attr_supported_features : UpdateFeatures
  _attr_auto_update : PyVal
  _installed_version_template : Template
  _latest_version_template : Template
  _release_notes_template : Option Template
  _title_template : Option Template
  _entity_pic_template : Option Template
  _availability_template : Option Template
  _install_action : PyVal
  _attr_device_class : Option PyVal

/-- The inner `config_template` closure of `__init__` in its required mode
(no `default` argument): `Template(str(config[key] or ""), hass=hass)` when
the key is present, otherwise `raise ValueError`. -/
def config_template (config : PyDict) (key : String) : Except PyExc Template :=
  match dictGet config key with
  | some v => Except.ok ⟨pyStr (if pyTruthy v then v else PyVal.str "")⟩
  | Option.none => Except.error PyExc.valueError

/-- The inner `config_template` closure with `default=None`: a compiled
template when the key is present, `None` otherwise. -/
def config_template_opt (config : PyDict) (key : String) : Option Template :=
  match dictGet config key with
  | some v => some ⟨pyStr (if pyTruthy v then v else PyVal.str "")⟩
  | Option.none => Option.none

/-- `TemplateUpdateEntity.__init__(hass, config)`: either the constructed
entity state, or the exception the constructor raises (a `ValueError` from
`config_template` when `installed_version` or `latest_version` is absent).
Assignments that cannot raise are collected into the resulting structure;
the two required-template lookups are the only fallible steps. -/
def TemplateUpdateEntity.init (config : PyDict) : Except PyExc TemplateUpdateEntity :=
  match config_template config "installed_version" with
  | Except.error e => Except.error e
  | Except.ok installedT =>
    match config_template config "latest_version" with
    | Except.error e => Except.error e
    | Except.ok latestT =>
      Except.ok {
        _config := config
        _attr_name := dictGet config "name"
        _attr_unique_id := dictGet config "name"
        _attr_supported_features := {
          install := pyTruthyOpt (dictGet config "install_action")
          specific_version := pyTruthyOpt (dictGet config "install_action")
          release_notes := pyTruthyOpt (dictGet config "release_notes") }
        _attr_auto_update := (dictGet config "auto_update").getD (PyVal.bool false)
        _installed_version_template := installedT
        _latest_version_template := latestT
        _release_notes_template := config_template_opt config "release_notes"
        _title_template := config_template_opt config "title"
        _entity_pic_template := config_template_opt config "entity_picture"
        _availability_template := config_template_opt config "availability"
        _install_action := (dictGet config "install_action").getD (PyVal.dict [])
        _attr_device_class :=
          match dictGet config "device_class" with
          | some v => if pyTruthy v then some v else Option.none
          | Option.none => Option.none }

/-- The `installed_version` property: `str(template.async_render())` inside
`try ... except (ValueError, TypeError): return None`.  An exception of any
other class escapes the property. -/
def TemplateUpdateEntity.installed_version (e : TemplateUpdateEntity) (host : Host) :
    Except PyExc (Option String) :=
  match host.render e._installed_version_template.source [] with
  | Except.ok v => Except.ok (some (pyStr v))
  | Except.error PyExc.valueError => Except.ok Option.none
  | Except.error PyExc.typeError => Except.ok Option.none
  | Except.error ex => Except.error ex

/-- The `latest_version` property, identical in shape to
`installed_version`. -/
def TemplateUpdateEntity.latest_version (e : TemplateUpdateEntity) (host : Host) :
    Except PyExc (Option String) :=
  match host.render e._latest_version_template.source [] with
  | Except.ok v => Except.ok (some (pyStr v))
  | Except.error PyExc.valueError => Except.ok Option.none
  | Except.error PyExc.typeError => Except.ok Option.none
  | Except.error ex => Except.error ex

/-- The `release_notes` property: `None` when no template is configured,
otherwise the rendered string with `(ValueError, TypeError)` mapped to
`None`. -/
def TemplateUpdateEntity.release_notes (e : TemplateUpdateEntity) (host : Host) :
    Except PyExc (Option String) :=
  match e._release_notes_template with
  | Option.none => Except.ok Option.none
  | some t =>
    match host.render t.source [] with
    | Except.ok v => Except.ok (some (pyStr v))
    | Except.error PyExc.valueError => Except.ok Option.none
    | Except.error PyExc.typeError => Except.ok Option.none
    | Except.error ex => Except.error ex

/-- The `title` property, same shape as `release_notes`. -/
def TemplateUpdateEntity.title (e : TemplateUpdateEntity) (host : Host) :
    Except PyExc (Option String) :=
  match e._title_template with
  | Option.none => Except.ok Option.none
  | some t =>
    match host.render t.source [] with
    | Except.ok v => Except.ok (some (pyStr v))
    | Except.error PyExc.valueError => Except.ok Option.none
    | Except.error PyExc.typeError => Except.ok Option.none
    | Except.error ex => Except.error ex

/-- The `entity_picture` property, same shape as `release_notes`. -/
def TemplateUpdateEntity.entity_picture (e : TemplateUpdateEntity) (host : Host) :
    Except PyExc (Option String) :=
  match e._entity_pic_template with
  | Option.none => Except.ok Option.none
  | some t =>
    match host.render t.source [] with
    | Except.ok v => Except.ok (some (pyStr v))
    | Except.error PyExc.valueError => Except.ok Option.none
    | Except.error PyExc.typeError => Except.ok Option.none
    | Except.error ex => Except.error ex

/-- The `available` property: `True` when no availability template was
configured, otherwise `bool(template.async_render())` with
`(ValueError, TypeError)` mapped to `False`. -/
def TemplateUpdateEntity.available (e : TemplateUpdateEntity) (host : Host) :
    Except PyExc Bool :=
  match e._availability_template with
  | Option.none => Except.ok true
  | some t =>
    match host.render t.source [] with
    | Except.ok v => Except.ok (pyTruthy v)
    | Except.error PyExc.valueError => Except.ok false
    | Except.error PyExc.typeError => Except.ok false
    | Except.error ex => Except.error ex

/-- The `_render_template` method on a raw value: falsy input returns
`None` without rendering; a string is compiled and rendered with
`TemplateError` mapped to `None` and any other exception escaping; a truthy
non-string is neither a `str` nor (in this data model) a `Template`
instance, so `Template(template_str)` raises `TypeError`, which the
`except TemplateError` clause does not catch. -/
def _render_template (host : Host) (template_str : PyVal) : Except PyExc PyVal :=
  if pyTruthy template_str = false then Except.ok PyVal.none
  else
    match template_str with
    | PyVal.str s =>
      match host.render s [] with
      | Except.ok v => Except.ok v
      | Except.error PyExc.templateError => Except.ok PyVal.none
      | Except.error ex => Except.error ex
    | _ => Except.error PyExc.typeError

mutual
/-- The `_render_dict_templates` method: depth-first rewrite of a nested
dict/list structure, rendering string leaves through `_render_template` and
passing every other leaf through unchanged.  The first escaping exception
aborts the walk (Python comprehension order: entries left to right, values
before the rest). -/
def _render_dict_templates (host : Host) : PyVal → Except PyExc PyVal
  | PyVal.dict xs =>
    match renderDictFields host xs with
    | Except.ok ys => Except.ok (PyVal.dict ys)
    | Except.error e => Except.error e
  | PyVal.list xs =>
    match renderListItems host xs with
    | Except.ok ys => Except.ok (PyVal.list ys)
    | Except.error e => Except.error e
  | PyVal.str s => _render_template host (PyVal.str s)
  | v => Except.ok v

/-- Entry-wise walk of `_render_dict_templates` over a dict's items. -/
def renderDictFields (host : Host) : List (String × PyVal) → Except PyExc (List (String × PyVal))
  | [] => Except.ok []
  | (k, v) :: rest =>
    match _render_dict_templates host v with
    | Except.error e => Except.error e
    | Except.ok v2 =>
      match renderDictFields host rest with
      | Except.error e => Except.error e
      | Except.ok r2 => Except.ok ((k, v2) :: r2)

/-- Item-wise walk of `_render_dict_templates` over a list. -/
def renderListItems (host : Host) : List PyVal → Except PyExc (List PyVal)
  | [] => Except.ok []
  | v :: rest =>
    match _render_dict_templates host v with
    | Except.error e => Except.error e
    | Except.ok v2 =>
      match renderListItems host rest with
      | Except.error e => Except.error e
      | Except.ok r2 => Except.ok (v2 :: r2)
end

/-- A service call as handed to `hass.services.async_call`: domain, service
name, payload. -/
abbrev DispatchCall := String × String × PyDict

/-- Outcome of `async_install`: a normal return or an escaping exception,
each recording whether (and with what arguments) the host service-call
mechanism was invoked. -/
inductive InstallResult where
  | returned (dispatched : Option DispatchCall)
  | raised (e : PyExc) (dispatched : Option DispatchCall)

/-- The service call performed during an `async_install` run, if any. -/
def dispatchedCall : InstallResult → Option DispatchCall
  | .returned d => d
  | .raised _ d => d

/-- The `version` argument as it is placed into the payload: `None` or a
string. -/
def pyOfVersion : Option String → PyVal
  | Option.none => PyVal.none
  | some s => PyVal.str s

/-- `TemplateUpdateEntity.async_install(version, should_backup, **kwargs)`
(`update.py`, lines 235-294), step for step:
missing or `None` `install_action` returns; `install_action["action"]` is
rendered through `_render_template` and a falsy result returns;
`install_action.get("data", {})` is recursively rendered; the payload is
built as `{"version": ..., "backup": ..., **kwargs}` and updated with the
rendered data when that is exactly a `dict`, otherwise the call returns;
finally `action.split(".", 1)` is unpacked into two names (raising
`ValueError` when the rendered action contains no dot, `AttributeError`
when it is not a string) and `hass.services.async_call` is invoked.  No
stage is wrapped in a `try`, so every exception escapes. -/
def async_install (e : TemplateUpdateEntity) (host : Host) (version : Option String)
    (should_backup : Bool) (kwargs : PyDict) : InstallResult :=
  match dictGet e._config "install_action" with
  | Option.none => InstallResult.returned Option.none
  | some PyVal.none => InstallResult.returned Option.none
  | some install_action =>
    match pySubscriptStr install_action "action" with
    | Except.error ex => InstallResult.raised ex Option.none
    | Except.ok action_value =>
      match _render_template host action_value with
      | Except.error ex => InstallResult.raised ex Option.none
      | Except.ok action =>
        if pyTruthy action = false then InstallResult.returned Option.none
        else
          match pyGetMethod install_action "data" (PyVal.dict []) with
          | Except.error ex => InstallResult.raised ex Option.none
          | Except.ok template_data =>
            match _render_dict_templates host template_data with
            | Except.error ex => InstallResult.raised ex Option.none
            | Except.ok rendered_data =>
              let base := dictUpdate
                [("version", pyOfVersion version), ("backup", PyVal.bool should_backup)]
                kwargs
              match rendered_data with
              | PyVal.dict rd =>
                let data := dictUpdate base rd
                match action with
                | PyVal.str s =>
                  match splitOnce s with
                  | Option.none => InstallResult.raised PyExc.valueError Option.none
                  | some (domain, action_name) =>
                    match host.dispatchResult domain action_name data with
                    | Option.none =>
                      InstallResult.returned (some (domain, action_name, data))
                    | some ex => InstallResult.raised ex (some (domain, action_name, data))
                | _ => InstallResult.raised PyExc.attributeError Option.none
              | _ => InstallResult.returned Option.none

/-- `_render_template_value(hass, value, template_vars)` (`__init__.py`,
lines 149-160): the render result, with any exception converted to `None`
(`except Exception`).  The caller distinguishes only `None` from non-`None`,
exactly as the source's `is not None` test does. -/
def _render_template_value (host : Host) (value : String) (template_vars : PyDict) : PyVal :=
  match host.render value template_vars with
  | Except.ok v => v
  | Except.error _ => PyVal.none

/-- The Python `is None` test used on `_render_template_value`'s result. -/
def rvIsNone : PyVal → Bool
  | PyVal.none => true
  | _ => false

/-- The loop body of `_process_template_config` on one `(key, value)` item:
a string value is rendered and kept only when the result `is not None`
(`Option.none` here means the assignment is skipped); a non-string value is
copied unchanged. -/
def processTemplateEntry (host : Host) (template_vars : PyDict) :
    String × PyVal → Option (String × PyVal) :=
  fun kv =>
    match kv.2 with
    | PyVal.str s =>
      let rv := _render_template_value host s template_vars
      if rvIsNone rv then Option.none else some (kv.1, rv)
    | _ => some kv

/-- `_process_template_config(hass, update_template, template_vars)`
(`__init__.py`, lines 163-179): every string value is rendered and kept
only when the result is not `None`; non-string values are copied unchanged.
The source assigns into an initially empty dict while iterating a dict
(whose keys are unique), which is the same as filtering its entries in
order. -/
def _process_template_config (host : Host) (update_template : PyDict)
    (template_vars : PyDict) : PyDict :=
  update_template.filterMap (processTemplateEntry host template_vars)

/-- `_create_entity_from_config(hass, entity_config, item_id)`
(`__init__.py`, lines 182-194): synthesize `"template_update_<item_id>"` as
the name when `item_id` is truthy and no name is configured, then construct
the entity (whose `__init__` may raise). -/
def _create_entity_from_config (entity_config : PyDict) (item_id : Option PyVal) :
    Except PyExc TemplateUpdateEntity :=
  let cfg :=
    match item_id with
    | some idv =>
      if pyTruthy idv && !(dictMem entity_config "name") then
        dictSet entity_config "name" (PyVal.str ("template_update_" ++ pyStr idv))
      else entity_config
    | Option.none => entity_config
  TemplateUpdateEntity.init cfg

/-- `_process_for_each_config(hass, loop_elements, update_template)`
(`__init__.py`, lines 123-146): for each element in input order, render the
entity template under `{"item": item}` and construct an entity with
`item.get("device_id")` as fallback name source.  An exception from entity
construction escapes the loop (nothing catches it), aborting the whole
expansion. -/
def _process_for_each_config (host : Host) (loop_elements : List PyDict)
    (update_template : PyDict) : Except PyExc (List TemplateUpdateEntity) :=
  match loop_elements with
  | [] => Except.ok []
  | item :: rest =>
    let entity_config := _process_template_config host update_template
      [("item", PyVal.dict item)]
    match _create_entity_from_config entity_config (dictGet item "device_id") with
    | Except.error e => Except.error e
    | Except.ok entity =>
      match _process_for_each_config host rest update_template with
      | Except.error e => Except.error e
      | Except.ok entities => Except.ok (entity :: entities)

/-- A placeholder entity used only to make `entityOf` total; no theorem
depends on its contents. -/
def fallbackEntity : TemplateUpdateEntity := {
  _config := []
  _attr_name := Option.none
  _attr_unique_id := Option.none
  _attr_supported_features := { install := false, specific_version := false,
                                release_notes := false }
  _attr_auto_update := PyVal.bool false
  _installed_version_template := ⟨""⟩
  _latest_version_template := ⟨""⟩
  _release_notes_template := Option.none
  _title_template := Option.none
  _entity_pic_template := Option.none
  _availability_template := Option.none
  _install_action := PyVal.dict []
  _attr_device_class := Option.none }

/-- The entity constructed from a configuration, for configurations on
which `__init__` succeeds. -/
def entityOf (cfg : PyDict) : TemplateUpdateEntity :=
  match TemplateUpdateEntity.init cfg with
  | Except.ok e => e
  | Except.error _ => fallbackEntity

/-- A host whose renders all fail with `TemplateError` (the exception class
`Template.async_render` raises on a broken template) and whose dispatches
succeed. -/
def hostFail : Host := {
  render := fun _ _ => Except.error PyExc.templateError
  dispatchResult := fun _ _ _ => Option.none }

/-- A host whose renders all fail with `ValueError`. -/
def hostVE : Host := {
  render := fun _ _ => Except.error PyExc.valueError
  dispatchResult := fun _ _ _ => Option.none }

/-- A complete configuration with the two required version templates. -/
def cfgC1 : PyDict :=
  [("name", PyVal.str "u1"), ("installed_version", PyVal.str "V1_T"),
   ("latest_version", PyVal.str "V1_T")]

/-- A host rendering the action template of `cfgC2` to a dot-free service
identifier. -/
def hostC2 : Host := {
  render := fun s _ =>
    if s = "NODOT_T" then Except.ok (PyVal.str "nodot")
    else if s = "V2_T" then Except.ok (PyVal.str "1")
    else Except.error PyExc.templateError
  dispatchResult := fun _ _ _ => Option.none }

/-- A configuration whose install action renders to a dot-free identifier
under `hostC2`. -/
def cfgC2 : PyDict :=
  [("name", PyVal.str "u2"), ("installed_version", PyVal.str "V2_T"),
   ("latest_version", PyVal.str "V2_T"),
   ("install_action", PyVal.dict [("action", PyVal.str "NODOT_T")])]

/-- A host rendering the action template of `cfgC3` to an identifier with
two dots. -/
def hostC3 : Host := {
  render := fun s _ =>
    if s = "ACT3_T" then Except.ok (PyVal.str "a.b.c")
    else if s = "V3_T" then Except.ok (PyVal.str "1")
    else Except.error PyExc.templateError
  dispatchResult := fun _ _ _ => Option.none }

/-- A configuration whose install action renders to `"a.b.c"` under
`hostC3`. -/
def cfgC3 : PyDict :=
  [("name", PyVal.str "u3"), ("installed_version", PyVal.str "V3_T"),
   ("latest_version", PyVal.str "V3_T"),
   ("install_action", PyVal.dict [("action", PyVal.str "ACT3_T")])]

/-- A configuration with both required version fields but no name. -/
def cfgC4 : PyDict :=
  [("installed_version", PyVal.str "V4_T"), ("latest_version", PyVal.str "V4_T")]

/-- A host for the for-each example: the name template expands to
`device_<device_id>` of the loop element, the version templates render to
constants. -/
def hostC5 : Host := {
  render := fun s vars =>
    if s = "NAME_T" then
      match dictGet vars "item" with
      | some (PyVal.dict item) =>
        match dictGet item "device_id" with
        | some (PyVal.str did) => Except.ok (PyVal.str ("device_" ++ did))
        | _ => Except.error PyExc.templateError
      | _ => Except.error PyExc.templateError
    else if s = "IV5_T" then Except.ok (PyVal.str "1.0")
    else if s = "LV5_T" then Except.ok (PyVal.str "2.0")
    else Except.error PyExc.templateError
  dispatchResult := fun _ _ _ => Option.none }

/-- Three for-each elements with ids `a`, `b`, `c`. -/
def elemsC5 : List PyDict :=
  [[("device_id", PyVal.str "a")], [("device_id", PyVal.str "b")],
   [("device_id", PyVal.str "c")]]

/-- The entity template of the for-each example: a templated name, the two
required version templates, and a non-string field. -/
def tmplC5 : PyDict :=
  [("name", PyVal.str "NAME_T"), ("installed_version", PyVal.str "IV5_T"),
   ("latest_version", PyVal.str "LV5_T"), ("auto_update", PyVal.bool true)]

/-- A complete configuration without an `availability` key. -/
def cfgC6 : PyDict :=
  [("name", PyVal.str "u6"), ("installed_version", PyVal.str "V6_T"),
   ("latest_version", PyVal.str "V6_T")]

/-- A host rendering the `data` template of `cfgC7` to a plain string (not
a mapping). -/
def hostC7 : Host := {
  render := fun s _ =>
    if s = "ACT7_T" then Except.ok (PyVal.str "a.b")
    else if s = "DATA7_T" then Except.ok (PyVal.str "notadict")
    else if s = "V7_T" then Except.ok (PyVal.str "1")
    else Except.error PyExc.templateError
  dispatchResult := fun _ _ _ => Option.none }

/-- A configuration whose install action data renders to a non-mapping
under `hostC7`. -/
def cfgC7 : PyDict :=
  [("name", PyVal.str "u7"), ("installed_version", PyVal.str "V7_T"),
   ("latest_version", PyVal.str "V7_T"),
   ("install_action", PyVal.dict
     [("action", PyVal.str "ACT7_T"), ("data", PyVal.str "DATA7_T")])]

/-- A host for which the `installed_version` template of `tmplC8` breaks
(its render raises) while the other templates render fine. -/
def hostC8 : Host := {
  render := fun s _ =>
    if s = "LV8_T" then Except.ok (PyVal.str "2")
    else if s = "N8_T" then Except.ok (PyVal.str "n8")
    else Except.error PyExc.templateError
  dispatchResult := fun _ _ _ => Option.none }

/-- One for-each element. -/
def elemsC8 : List PyDict := [[("device_id", PyVal.str "x8")]]

/-- An entity template whose `installed_version` template fails to render
under `hostC8`. -/
def tmplC8 : PyDict :=
  [("name", PyVal.str "N8_T"), ("installed_version", PyVal.str "BAD8_T"),
   ("latest_version", PyVal.str "LV8_T")]

/-- A host for which only the `release_notes` template of `tmplC8b`
breaks. -/
def hostC8b : Host := {
  render := fun s _ =>
    if s = "IV8_T" then Except.ok (PyVal.str "1")
    else if s = "LV8_T" then Except.ok (PyVal.str "2")
    else Except.error PyExc.templateError
  dispatchResult := fun _ _ _ => Option.none }

/-- An entity template whose optional `release_notes` template fails to
render under `hostC8b`, while the required templates render fine. -/
def tmplC8b : PyDict :=
  [("release_notes", PyVal.str "BAD8_T"), ("installed_version", PyVal.str "IV8_T"),
   ("latest_version", PyVal.str "LV8_T"), ("auto_update", PyVal.bool true)]

/-- A host for the payload-precedence example: the install action renders
to `dom.srv` and its data template renders `backup` to `"never"`. -/
def hostC9 : Host := {
  render := fun s _ =>
    if s = "ACT9_T" then Except.ok (PyVal.str "dom.srv")
    else if s = "B9_T" then Except.ok (PyVal.str "never")
    else if s = "V9_T" then Except.ok (PyVal.str "1")
    else Except.error PyExc.templateError
  dispatchResult := fun _ _ _ => Option.none }

/-- A configuration whose install action data contains a `backup` key that
collides with the caller-supplied payload. -/
def cfgC9 : PyDict :=
  [("name", PyVal.str "u9"), ("installed_version", PyVal.str "V9_T"),
   ("latest_version", PyVal.str "V9_T"),
   ("install_action", PyVal.dict
     [("action", PyVal.str "ACT9_T"),
      ("data", PyVal.dict [("backup", PyVal.str "B9_T")])])]

/-- A complete configuration carrying a name. -/
def cfgC10 : PyDict :=
  [("name", PyVal.str "shared"), ("installed_version", PyVal.str "VA_T"),
   ("latest_version", PyVal.str "VB_T")]

theorem dictGet_isSome (d : PyDict) (k : String) : (dictGet d k).isSome = dictMem d k := by
  induction d with
  | nil => rfl
  | cons kv rest ih =>
    obtain ⟨k2, v⟩ := kv
    by_cases h : k2 = k <;> simp [dictGet, dictMem, h, ih]

theorem dictGet_eq_none_of_not_mem (d : PyDict) (k : String) (h : dictMem d k = false) :
    dictGet d k = Option.none := by
  have h2 := dictGet_isSome d k
  rw [h] at h2
  exact Option.not_isSome_iff_eq_none.mp (by simp [h2])

theorem dictMem_iff_mem_keys (d : PyDict) (k : String) :
    dictMem d k = true ↔ k ∈ d.map Prod.fst := by
  induction d with
  | nil => simp [dictMem]
  | cons kv rest ih =>
    obtain ⟨k2, v⟩ := kv
    by_cases h : k2 = k <;> simp [dictMem, h, ih]
    exact fun h2 => (h h2.symm).elim


theorem dictGet_dictSet_self (d : PyDict) (k : String) (v : PyVal) :
    dictGet (dictSet d k v) k = some v := by
  induction d with
  | nil => simp [dictSet, dictGet]
  | cons kv rest ih =>
    obtain ⟨k2, v2⟩ := kv
    by_cases h : k2 = k <;> simp [dictSet, dictGet, h, ih]

theorem dictGet_dictSet_ne (d : PyDict) (k k2 : String) (v : PyVal) (h : k2 ≠ k) :
    dictGet (dictSet d k v) k2 = dictGet d k2 := by
  have hne : ¬ k = k2 := fun h2 => h h2.symm
  induction d with
  | nil => simp [dictSet, dictGet, hne]
  | cons kv rest ih =>
    obtain ⟨k3, v3⟩ := kv
    by_cases h3 : k3 = k
    · subst h3
      simp [dictSet, dictGet, hne]
    · by_cases h4 : k3 = k2 <;> simp [dictSet, dictGet, h3, h4, ih, h]

theorem dictMem_dictSet_ne (d : PyDict) (k k2 : String) (v : PyVal) (h : k2 ≠ k) :
    dictMem (dictSet d k v) k2 = dictMem d k2 := by
  rw [← dictGet_isSome, ← dictGet_isSome, dictGet_dictSet_ne d k k2 v h]

theorem dictUpdate_get_of_not_mem (other : PyDict) (k : String)
    (h : dictMem other k = false) :
    ∀ d, dictGet (dictUpdate d other) k = dictGet d k := by
  induction other with
  | nil => intro d; rfl
  | cons kv rest ih =>
    obtain ⟨k2, v⟩ := kv
    intro d
    by_cases h2 : k2 = k
    · subst h2
      simp [dictMem] at h
    · have h3 : dictMem rest k = false := by
        have h6 := h
        simp [dictMem, h2] at h6
        exact h6
      rw [dictUpdate, ih h3 (dictSet d k2 v),
        dictGet_dictSet_ne d k2 k v (fun hx => h2 hx.symm)]

theorem dictUpdate_get_of_mem (other : PyDict) (k : String)
    (hnd : (other.map Prod.fst).Nodup) (h : dictMem other k = true) :
    ∀ d, dictGet (dictUpdate d other) k = dictGet other k := by
  induction other with
  | nil => simp [dictMem] at h
  | cons kv rest ih =>
    obtain ⟨k2, v⟩ := kv
    rw [List.map_cons] at hnd
    obtain ⟨hk2, hndr⟩ := List.nodup_cons.mp hnd
    intro d
    by_cases h2 : k2 = k
    · subst h2
      have hnm : dictMem rest k2 = false := by
        cases h5 : dictMem rest k2
        · rfl
        · exact absurd ((dictMem_iff_mem_keys rest k2).mp h5) hk2
      rw [dictUpdate, dictUpdate_get_of_not_mem rest k2 hnm (dictSet d k2 v),
        dictGet_dictSet_self]
      simp [dictGet]
    · have h3 : dictMem rest k = true := by
        have h6 := h
        simp [dictMem, h2] at h6
        exact h6
      rw [dictUpdate, ih hndr h3 (dictSet d k2 v)]
      simp [dictGet, h2]

theorem init_isOk_eq (cfg : PyDict) :
    exOk (TemplateUpdateEntity.init cfg)
      = (dictMem cfg "installed_version" && dictMem cfg "latest_version") := by
  rw [← dictGet_isSome cfg "installed_version", ← dictGet_isSome cfg "latest_version"]
  cases h1 : dictGet cfg "installed_version" <;>
    cases h2 : dictGet cfg "latest_version" <;>
      simp [TemplateUpdateEntity.init, config_template, h1, h2, exOk]

theorem init_ok_fields (cfg : PyDict) (e : TemplateUpdateEntity)
    (h : TemplateUpdateEntity.init cfg = Except.ok e) :
    e._config = cfg ∧ e._attr_name = dictGet cfg "name"
    ∧ e._attr_unique_id = dictGet cfg "name"
    ∧ e._availability_template = config_template_opt cfg "availability" := by
  unfold TemplateUpdateEntity.init at h
  cases h1 : config_template cfg "installed_version" with
  | error e1 => rw [h1] at h; simp at h
  | ok t1 =>
    cases h2 : config_template cfg "latest_version" with
    | error e2 => rw [h1, h2] at h; simp at h
    | ok t2 =>
      rw [h1, h2] at h
      simp only [Except.ok.injEq] at h
      subst h
      exact ⟨rfl, rfl, rfl, rfl⟩

theorem create_entity_isOk_eq (cfg : PyDict) (item_id : Option PyVal) :
    exOk (_create_entity_from_config cfg item_id)
      = (dictMem cfg "installed_version" && dictMem cfg "latest_version") := by
  unfold _create_entity_from_config
  cases item_id with
  | none => exact init_isOk_eq cfg
  | some idv =>
    dsimp only
    by_cases h : (pyTruthy idv && !(dictMem cfg "name")) = true
    · rw [if_pos h, init_isOk_eq,
        dictMem_dictSet_ne cfg "name" "installed_version" _ (by decide),
        dictMem_dictSet_ne cfg "name" "latest_version" _ (by decide)]
    · rw [if_neg h]
      exact init_isOk_eq cfg

theorem processTemplateEntry_key (host : Host) (vars : PyDict) (a b : String × PyVal)
    (h : processTemplateEntry host vars a = some b) : b.1 = a.1 := by
  obtain ⟨k, v⟩ := a
  cases v with
  | str s =>
    unfold processTemplateEntry at h
    dsimp at h
    split at h
    · exact Option.noConfusion h
    · injection h with h2
      rw [← h2]
  | none => injection h with h2; rw [← h2]
  | bool b2 => injection h with h2; rw [← h2]
  | int n => injection h with h2; rw [← h2]
  | list xs => injection h with h2; rw [← h2]
  | dict xs => injection h with h2; rw [← h2]

theorem ptc_mem_nonstr (host : Host) (tmpl vars : PyDict) (k : String) (v : PyVal)
    (hmem : (k, v) ∈ tmpl) (hns : ∀ s, v ≠ PyVal.str s) :
    (k, v) ∈ _process_template_config host tmpl vars := by
  refine List.mem_filterMap.mpr ⟨(k, v), hmem, ?_⟩
  cases v with
  | str s => exact absurd rfl (hns s)
  | none => rfl
  | bool b => rfl
  | int n => rfl
  | list xs => rfl
  | dict xs => rfl

theorem ptc_mem_str (host : Host) (tmpl vars : PyDict) (k s : String) (rv : PyVal)
    (hmem : (k, PyVal.str s) ∈ tmpl)
    (hrv : _render_template_value host s vars = rv) (hnn : rvIsNone rv = false) :
    (k, rv) ∈ _process_template_config host tmpl vars := by
  refine List.mem_filterMap.mpr ⟨(k, PyVal.str s), hmem, ?_⟩
  unfold processTemplateEntry
  dsimp
  rw [hrv, hnn]
  rfl

theorem ptc_key_mem (host : Host) (tmpl vars : PyDict) (k : String)
    (h : dictMem (_process_template_config host tmpl vars) k = true) :
    k ∈ tmpl.map Prod.fst := by
  have h1 := (dictMem_iff_mem_keys _ k).mp h
  obtain ⟨b, hb, hbk⟩ := List.mem_map.mp h1
  obtain ⟨a, ha, hab⟩ := List.mem_filterMap.mp hb
  have h2 := processTemplateEntry_key host vars a b hab
  refine List.mem_map.mpr ⟨a, ha, ?_⟩
  rw [← h2]
  exact hbk

theorem ptc_not_mem_of_render_none (host : Host) (vars : PyDict) (k s : String)
    (hnone : rvIsNone (_render_template_value host s vars) = true) :
    ∀ tmpl : PyDict, (k, PyVal.str s) ∈ tmpl → (tmpl.map Prod.fst).Nodup →
      dictMem (_process_template_config host tmpl vars) k = false := by
  intro tmpl
  induction tmpl with
  | nil => intro hmem _; cases hmem
  | cons kv rest ih =>
    intro hmem hnd
    obtain ⟨k2, v2⟩ := kv
    rw [List.map_cons] at hnd
    obtain ⟨hk2, hndr⟩ := List.nodup_cons.mp hnd
    unfold _process_template_config
    rw [List.filterMap_cons]
    rcases List.mem_cons.mp hmem with hhead | htail
    · cases hhead
      have hfa : processTemplateEntry host vars (k, PyVal.str s) = Option.none := by
        unfold processTemplateEntry
        dsimp
        rw [hnone]
        rfl
      rw [hfa]
      show dictMem (List.filterMap (processTemplateEntry host vars) rest) k = false
      cases hm : dictMem (_process_template_config host rest vars) k with
      | false => exact hm
      | true => exact absurd (ptc_key_mem host rest vars k hm) hk2
    · have hkmem : k ∈ rest.map Prod.fst :=
        List.mem_map.mpr ⟨(k, PyVal.str s), htail, rfl⟩
      have hkne : k2 ≠ k := fun he => hk2 (he ▸ hkmem)
      cases hfa : processTemplateEntry host vars (k2, v2) with
      | none =>
        show dictMem (List.filterMap (processTemplateEntry host vars) rest) k = false
        exact ih htail hndr
      | some b =>
        obtain ⟨bk, bv⟩ := b
        have hbk : bk = k2 := processTemplateEntry_key host vars (k2, v2) (bk, bv) hfa
        have h3 := ih htail hndr
        unfold _process_template_config at h3
        show dictMem ((bk, bv) :: List.filterMap (processTemplateEntry host vars) rest) k
          = false
        simp [dictMem, hbk, hkne, h3]

theorem pfe_ok_parts (host : Host) (tmpl : PyDict) :
    ∀ elements : List PyDict,
      (∀ item ∈ elements, exOk (_create_entity_from_config
          (_process_template_config host tmpl [("item", PyVal.dict item)])
          (dictGet item "device_id")) = true) →
      ∃ es, _process_for_each_config host elements tmpl = Except.ok es
        ∧ es.length = elements.length
        ∧ ∀ i (h1 : i < es.length) (h2 : i < elements.length),
            Except.ok (es.get ⟨i, h1⟩) = _create_entity_from_config
              (_process_template_config host tmpl
                [("item", PyVal.dict (elements.get ⟨i, h2⟩))])
              (dictGet (elements.get ⟨i, h2⟩) "device_id") := by
  intro elements
  induction elements with
  | nil =>
    intro _
    exact ⟨[], rfl, rfl, fun i h1 h2 => absurd h1 (Nat.not_lt_zero i)⟩
  | cons item rest ih =>
    intro hok
    have hhead := hok item (List.mem_cons_self item rest)
    obtain ⟨e0, he0⟩ : ∃ e0, _create_entity_from_config
        (_process_template_config host tmpl [("item", PyVal.dict item)])
        (dictGet item "device_id") = Except.ok e0 := by
      cases hc : _create_entity_from_config
          (_process_template_config host tmpl [("item", PyVal.dict item)])
          (dictGet item "device_id") with
      | ok e0 => exact ⟨e0, rfl⟩
      | error ex => rw [hc] at hhead; cases hhead
    obtain ⟨es, hes, hlen, hget⟩ := ih (fun it hit => hok it (List.mem_cons_of_mem item hit))
    refine ⟨e0 :: es, ?_, ?_, ?_⟩
    · unfold _process_for_each_config
      dsimp only
      rw [he0, hes]
    · simp [hlen]
    · intro i h1 h2
      cases i with
      | zero => exact he0.symm
      | succ j => exact hget j (Nat.lt_of_succ_lt_succ h1) (Nat.lt_of_succ_lt_succ h2)

theorem async_install_no_action (e : TemplateUpdateEntity) (host : Host)
    (version : Option String) (sb : Bool) (kwargs : PyDict)
    (h : dictGet e._config "install_action" = Option.none) :
    async_install e host version sb kwargs = InstallResult.returned Option.none := by
  unfold async_install
  rw [h]

theorem async_install_action_is_none (e : TemplateUpdateEntity) (host : Host)
    (version : Option String) (sb : Bool) (kwargs : PyDict)
    (h : dictGet e._config "install_action" = some PyVal.none) :
    async_install e host version sb kwargs = InstallResult.returned Option.none := by
  unfold async_install
  rw [h]

theorem async_install_subscript_keyError (e : TemplateUpdateEntity) (host : Host)
    (version : Option String) (sb : Bool) (kwargs : PyDict) (d : PyDict)
    (hia : dictGet e._config "install_action" = some (PyVal.dict d))
    (hav : dictGet d "action" = Option.none) :
    async_install e host version sb kwargs
      = InstallResult.raised PyExc.keyError Option.none := by
  have hsub : pySubscriptStr (PyVal.dict d) "action" = Except.error PyExc.keyError := by
    unfold pySubscriptStr
    dsimp only
    rw [hav]
  unfold async_install
  rw [hia]
  dsimp only
  rw [hsub]

theorem async_install_render_raises (e : TemplateUpdateEntity) (host : Host)
    (version : Option String) (sb : Bool) (kwargs : PyDict) (d : PyDict)
    (av : PyVal) (ex : PyExc)
    (hia : dictGet e._config "install_action" = some (PyVal.dict d))
    (hav : dictGet d "action" = some av)
    (hrender : _render_template host av = Except.error ex) :
    async_install e host version sb kwargs = InstallResult.raised ex Option.none := by
  have hsub : pySubscriptStr (PyVal.dict d) "action" = Except.ok av := by
    unfold pySubscriptStr
    dsimp only
    rw [hav]
  unfold async_install
  rw [hia]
  dsimp only
  rw [hsub]
  dsimp only
  rw [hrender]

theorem async_install_falsy_action (e : TemplateUpdateEntity) (host : Host)
    (version : Option String) (sb : Bool) (kwargs : PyDict) (d : PyDict)
    (av act : PyVal)
    (hia : dictGet e._config "install_action" = some (PyVal.dict d))
    (hav : dictGet d "action" = some av)
    (hrender : _render_template host av = Except.ok act)
    (hfalsy : pyTruthy act = false) :
    async_install e host version sb kwargs = InstallResult.returned Option.none := by
  have hsub : pySubscriptStr (PyVal.dict d) "action" = Except.ok av := by
    unfold pySubscriptStr
    dsimp only
    rw [hav]
  unfold async_install
  rw [hia]
  dsimp only
  rw [hsub]
  dsimp only
  rw [hrender]
  dsimp only
  rw [hfalsy]
  rw [if_pos rfl]

theorem async_install_nondict_data (e : TemplateUpdateEntity) (host : Host)
    (version : Option String) (sb : Bool) (kwargs : PyDict) (d : PyDict)
    (av act rd : PyVal)
    (hia : dictGet e._config "install_action" = some (PyVal.dict d))
    (hav : dictGet d "action" = some av)
    (hrender : _render_template host av = Except.ok act)
    (htruthy : pyTruthy act = true)
    (hdata : _render_dict_templates host ((dictGet d "data").getD (PyVal.dict []))
        = Except.ok rd)
    (hnd : ∀ xs : PyDict, rd ≠ PyVal.dict xs) :
    async_install e host version sb kwargs = InstallResult.returned Option.none := by
  have hsub : pySubscriptStr (PyVal.dict d) "action" = Except.ok av := by
    unfold pySubscriptStr
    dsimp only
    rw [hav]
  have hget : pyGetMethod (PyVal.dict d) "data" (PyVal.dict [])
      = Except.ok ((dictGet d "data").getD (PyVal.dict [])) := rfl
  unfold async_install
  rw [hia]
  dsimp only
  rw [hsub]
  dsimp only
  rw [hrender]
  dsimp only
  rw [htruthy]
  rw [if_neg (by decide : ¬(true = false))]
  rw [hget]
  dsimp only
  rw [hdata]
  cases rd with
  | dict xs => exact absurd rfl (hnd xs)
  | none => rfl
  | bool b => rfl
  | int n => rfl
  | str s2 => rfl
  | list xs => rfl

theorem async_install_past_checks (e : TemplateUpdateEntity) (host : Host)
    (version : Option String) (sb : Bool) (kwargs : PyDict) (d : PyDict)
    (av : PyVal) (s : String) (rdd : PyDict)
    (hia : dictGet e._config "install_action" = some (PyVal.dict d))
    (hav : dictGet d "action" = some av)
    (hrender : _render_template host av = Except.ok (PyVal.str s))
    (htruthy : pyTruthy (PyVal.str s) = true)
    (hdata : _render_dict_templates host ((dictGet d "data").getD (PyVal.dict []))
        = Except.ok (PyVal.dict rdd)) :
    async_install e host version sb kwargs =
      (match splitOnce s with
       | Option.none => InstallResult.raised PyExc.valueError Option.none
       | some (domain, action_name) =>
         match host.dispatchResult domain action_name
             (dictUpdate (dictUpdate
               [("version", pyOfVersion version), ("backup", PyVal.bool sb)] kwargs) rdd) with
         | Option.none => InstallResult.returned (some (domain, action_name,
             dictUpdate (dictUpdate
               [("version", pyOfVersion version), ("backup", PyVal.bool sb)] kwargs) rdd))
         | some ex => InstallResult.raised ex (some (domain, action_name,
             dictUpdate (dictUpdate
               [("version", pyOfVersion version), ("backup", PyVal.bool sb)] kwargs) rdd))) := by
  have hsub : pySubscriptStr (PyVal.dict d) "action" = Except.ok av := by
    unfold pySubscriptStr
    dsimp only
    rw [hav]
  have hget : pyGetMethod (PyVal.dict d) "data" (PyVal.dict [])
      = Except.ok ((dictGet d "data").getD (PyVal.dict [])) := rfl
  unfold async_install
  rw [hia]
  dsimp only
  rw [hsub]
  dsimp only
  rw [hrender]
  dsimp only
  rw [htruthy]
  rw [if_neg (by decide : ¬(true = false))]
  rw [hget]
  dsimp only
  rw [hdata]

/-- C1, counterexample: an entity whose `installed_version` template render
fails with `TemplateError` — the exception class the host's
`Template.async_render` raises on a rendering failure, and the one this
very file's `_render_template` catches — propagates the exception out of
the `installed_version` accessor instead of returning `None`, because the
accessor's `except` clause names only `ValueError` and `TypeError`. -/
theorem claimC1_counterexample :
    TemplateUpdateEntity.installed_version (entityOf cfgC1) hostFail
      = Except.error PyExc.templateError := rfl

/-- C1, amended: a read accessor returns `None` (`False` for `available`)
when the underlying render fails with `ValueError` or `TypeError` — the
only classes its `except` clause names — and lets a failure of any other
class (such as `TemplateError`) propagate to the caller. -/
theorem claimC1_amended (e : TemplateUpdateEntity) (host : Host) (ex : PyExc)
    (hcaught : ex = PyExc.valueError ∨ ex = PyExc.typeError) :
    (host.render e._installed_version_template.source [] = Except.error ex →
        TemplateUpdateEntity.installed_version e host = Except.ok Option.none)
    ∧ (host.render e._latest_version_template.source [] = Except.error ex →
        TemplateUpdateEntity.latest_version e host = Except.ok Option.none)
    ∧ (∀ t, e._release_notes_template = some t →
        host.render t.source [] = Except.error ex →
        TemplateUpdateEntity.release_notes e host = Except.ok Option.none)
    ∧ (∀ t, e._title_template = some t →
        host.render t.source [] = Except.error ex →
        TemplateUpdateEntity.title e host = Except.ok Option.none)
    ∧ (∀ t, e._entity_pic_template = some t →
        host.render t.source [] = Except.error ex →
        TemplateUpdateEntity.entity_picture e host = Except.ok Option.none)
    ∧ (∀ t, e._availability_template = some t →
        host.render t.source [] = Except.error ex →
        TemplateUpdateEntity.available e host = Except.ok false)
    ∧ (∀ ex2, ex2 ≠ PyExc.valueError → ex2 ≠ PyExc.typeError →
        host.render e._installed_version_template.source [] = Except.error ex2 →
        TemplateUpdateEntity.installed_version e host = Except.error ex2) := by
  refine ⟨?_, ?_, ?_, ?_, ?_, ?_, ?_⟩
  · intro h
    unfold TemplateUpdateEntity.installed_version
    rw [h]
    rcases hcaught with rfl | rfl <;> rfl
  · intro h
    unfold TemplateUpdateEntity.latest_version
    rw [h]
    rcases hcaught with rfl | rfl <;> rfl
  · intro t ht h
    unfold TemplateUpdateEntity.release_notes
    rw [ht]
    dsimp only
    rw [h]
    rcases hcaught with rfl | rfl <;> rfl
  · intro t ht h
    unfold TemplateUpdateEntity.title
    rw [ht]
    dsimp only
    rw [h]
    rcases hcaught with rfl | rfl <;> rfl
  · intro t ht h
    unfold TemplateUpdateEntity.entity_picture
    rw [ht]
    dsimp only
    rw [h]
    rcases hcaught with rfl | rfl <;> rfl
  · intro t ht h
    unfold TemplateUpdateEntity.available
    rw [ht]
    dsimp only
    rw [h]
    rcases hcaught with rfl | rfl <;> rfl
  · intro ex2 h1 h2 h
    unfold TemplateUpdateEntity.installed_version
    rw [h]
    cases ex2 with
    | valueError => exact absurd rfl h1
    | typeError => exact absurd rfl h2
    | templateError => rfl
    | keyError => rfl
    | attributeError => rfl
    | other => rfl

/-- C1, witness: on a concrete entity whose render fails with `ValueError`,
the `installed_version` accessor returns `None` without raising. -/
theorem claimC1_witness :
    TemplateUpdateEntity.installed_version (entityOf cfgC1) hostVE
      = Except.ok Option.none :=
  (claimC1_amended (entityOf cfgC1) hostVE PyExc.valueError (Or.inl rfl)).1 rfl

/-- C2, counterexample: `async_install` raises.  With an install action
whose identifier renders to the dot-free string `"nodot"`, the unpacking
`domain, action_name = action.split(".", 1)` raises `ValueError`, which no
`try` in `async_install` catches. -/
theorem claimC2_counterexample :
    async_install (entityOf cfgC2) hostC2 (some "2.0") true []
      = InstallResult.raised PyExc.valueError Option.none := rfl

/-- C2, amended: `async_install` returns normally when the install action
is missing or `None`, when the rendered action identifier is falsy (which
includes an action render failing with `TemplateError`, mapped to `None`
by `_render_template`), and when the rendered data is not a dict; but a
rendered action identifier that is a string with no dot separator makes it
raise `ValueError` from tuple unpacking. -/
theorem claimC2_amended (e : TemplateUpdateEntity) (host : Host)
    (version : Option String) (sb : Bool) (kwargs : PyDict) :
    (dictGet e._config "install_action" = Option.none →
        async_install e host version sb kwargs = InstallResult.returned Option.none)
    ∧ (dictGet e._config "install_action" = some PyVal.none →
        async_install e host version sb kwargs = InstallResult.returned Option.none)
    ∧ (∀ d av act, dictGet e._config "install_action" = some (PyVal.dict d) →
        dictGet d "action" = some av →
        _render_template host av = Except.ok act → pyTruthy act = false →
        async_install e host version sb kwargs = InstallResult.returned Option.none)
    ∧ (∀ d av act rd, dictGet e._config "install_action" = some (PyVal.dict d) →
        dictGet d "action" = some av →
        _render_template host av = Except.ok act → pyTruthy act = true →
        _render_dict_templates host ((dictGet d "data").getD (PyVal.dict []))
          = Except.ok rd →
        (∀ xs : PyDict, rd ≠ PyVal.dict xs) →
        async_install e host version sb kwargs = InstallResult.returned Option.none)
    ∧ (∀ d av s rdd, dictGet e._config "install_action" = some (PyVal.dict d) →
        dictGet d "action" = some av →
        _render_template host av = Except.ok (PyVal.str s) →
        pyTruthy (PyVal.str s) = true →
        _render_dict_templates host ((dictGet d "data").getD (PyVal.dict []))
          = Except.ok (PyVal.dict rdd) →
        splitOnce s = Option.none →
        async_install e host version sb kwargs
          = InstallResult.raised PyExc.valueError Option.none) := by
  refine ⟨?_, ?_, ?_, ?_, ?_⟩
  · exact async_install_no_action e host version sb kwargs
  · exact async_install_action_is_none e host version sb kwargs
  · intro d av act hia hav hrender hfalsy
    exact async_install_falsy_action e host version sb kwargs d av act hia hav hrender hfalsy
  · intro d av act rd hia hav hrender htruthy hdata hnd
    exact async_install_nondict_data e host version sb kwargs d av act rd
      hia hav hrender htruthy hdata hnd
  · intro d av s rdd hia hav hrender htruthy hdata hsplit
    rw [async_install_past_checks e host version sb kwargs d av s rdd
      hia hav hrender htruthy hdata, hsplit]

/-- C2, witness: on a concrete entity and host whose rendered action
identifier has no dot, `async_install` raises `ValueError`. -/
theorem claimC2_witness :
    async_install (entityOf cfgC2) hostC2 (some "2.0") false [("extra", PyVal.int 1)]
      = InstallResult.raised PyExc.valueError Option.none :=
  (claimC2_amended (entityOf cfgC2) hostC2 (some "2.0") false
      [("extra", PyVal.int 1)]).2.2.2.2
    [("action", PyVal.str "NODOT_T")] (PyVal.str "NODOT_T") "nodot" []
    rfl rfl rfl rfl rfl rfl

/-- C3, counterexample: with a rendered action identifier `"a.b.c"` that
contains two dots (not exactly one), `async_install` still dispatches a
service call — `split(".", 1)` splits at the first dot only, giving domain
`"a"` and service `"b.c"` — so the dispatch count does not stay zero. -/
theorem claimC3_counterexample :
    (("a.b.c".data.filter (fun c => c = '.')).length = 2)
    ∧ dispatchedCall (async_install (entityOf cfgC3) hostC3 (some "2.0") true [])
      = some ("a", "b.c",
          [("version", PyVal.str "2.0"), ("backup", PyVal.bool true)]) :=
  ⟨rfl, rfl⟩

/-- C3, amended: once the earlier stages succeed, a rendered action
identifier with no dot leads to no dispatch (the call raises `ValueError`
from tuple unpacking before reaching the service call), while an
identifier with one or more dots is dispatched with the text before the
first dot as the domain and the remainder as the service name. -/
theorem claimC3_amended (e : TemplateUpdateEntity) (host : Host)
    (version : Option String) (sb : Bool) (kwargs : PyDict) (d : PyDict)
    (av : PyVal) (s : String) (rdd : PyDict)
    (hia : dictGet e._config "install_action" = some (PyVal.dict d))
    (hav : dictGet d "action" = some av)
    (hrender : _render_template host av = Except.ok (PyVal.str s))
    (htruthy : pyTruthy (PyVal.str s) = true)
    (hdata : _render_dict_templates host ((dictGet d "data").getD (PyVal.dict []))
        = Except.ok (PyVal.dict rdd)) :
    dispatchedCall (async_install e host version sb kwargs)
      = (match splitOnce s with
         | Option.none => Option.none
         | some (domain, action_name) => some (domain, action_name,
             dictUpdate (dictUpdate
               [("version", pyOfVersion version), ("backup", PyVal.bool sb)] kwargs) rdd))
    ∧ (splitOnce s = Option.none →
        async_install e host version sb kwargs
          = InstallResult.raised PyExc.valueError Option.none) := by
  rw [async_install_past_checks e host version sb kwargs d av s rdd
    hia hav hrender htruthy hdata]
  constructor
  · cases hsp : splitOnce s with
    | none => rfl
    | some p =>
      obtain ⟨dom, srv⟩ := p
      dsimp only
      cases host.dispatchResult dom srv
          (dictUpdate (dictUpdate
            [("version", pyOfVersion version), ("backup", PyVal.bool sb)] kwargs) rdd) with
      | none => rfl
      | some ex => rfl
  · intro hsp
    rw [hsp]

/-- C3, witness: on a concrete run whose identifier renders to `"a.b.c"`,
the dispatched call is the one computed by splitting at the first dot. -/
theorem claimC3_witness :
    dispatchedCall (async_install (entityOf cfgC3) hostC3 (some "2.0") true [])
      = (match splitOnce "a.b.c" with
         | Option.none => Option.none
         | some (domain, action_name) => some (domain, action_name,
             dictUpdate (dictUpdate
               [("version", pyOfVersion (some "2.0")), ("backup", PyVal.bool true)] []) [])) :=
  (claimC3_amended (entityOf cfgC3) hostC3 (some "2.0") true []
    [("action", PyVal.str "ACT3_T")] (PyVal.str "ACT3_T") "a.b.c" []
    rfl rfl rfl rfl rfl).1

/-- C4, counterexample: constructing the entity adapter from a
configuration that has both version fields but no `name` succeeds —
`__init__` reads the name with `config.get(CONF_NAME)` and never raises
for its absence, so "missing name" does not fail construction. -/
theorem claimC4_counterexample :
    dictMem cfgC4 "name" = false
    ∧ exOk (TemplateUpdateEntity.init cfgC4) = true := ⟨rfl, rfl⟩

/-- C4, amended: entity-adapter construction raises exactly when
`installed_version` or `latest_version` is missing from the configuration;
a missing `name` is accepted (the attribute is simply `None`). -/
theorem claimC4_amended (cfg : PyDict) :
    exOk (TemplateUpdateEntity.init cfg)
      = (dictMem cfg "installed_version" && dictMem cfg "latest_version") :=
  init_isOk_eq cfg

/-- C5: for-each expansion over `N` elements whose entity constructions
succeed yields exactly `N` entities, one per element in input order, the
`i`-th built from the template processed under the substitution context
`{"item": element_i}`; in that processing every non-string field is copied
unchanged and every string field whose render yields a non-`None` value is
re-rendered under that context. -/
theorem claimC5 (host : Host) (elements : List PyDict) (tmpl : PyDict)
    (hok : ∀ item ∈ elements, exOk (_create_entity_from_config
        (_process_template_config host tmpl [("item", PyVal.dict item)])
        (dictGet item "device_id")) = true) :
    ∃ es, _process_for_each_config host elements tmpl = Except.ok es
      ∧ es.length = elements.length
      ∧ (∀ i (h1 : i < es.length) (h2 : i < elements.length),
          Except.ok (es.get ⟨i, h1⟩) = _create_entity_from_config
            (_process_template_config host tmpl
              [("item", PyVal.dict (elements.get ⟨i, h2⟩))])
            (dictGet (elements.get ⟨i, h2⟩) "device_id"))
      ∧ (∀ item : PyDict, ∀ k v, (k, v) ∈ tmpl → (∀ s, v ≠ PyVal.str s) →
          (k, v) ∈ _process_template_config host tmpl [("item", PyVal.dict item)])
      ∧ (∀ item : PyDict, ∀ k s rv, (k, PyVal.str s) ∈ tmpl →
          _render_template_value host s [("item", PyVal.dict item)] = rv →
          rvIsNone rv = false →
          (k, rv) ∈ _process_template_config host tmpl [("item", PyVal.dict item)]) := by
  obtain ⟨es, h1, h2, h3⟩ := pfe_ok_parts host tmpl elements hok
  exact ⟨es, h1, h2, h3,
    fun item k v hm hns =>
      ptc_mem_nonstr host tmpl [("item", PyVal.dict item)] k v hm hns,
    fun item k s rv hm hrv hnn =>
      ptc_mem_str host tmpl [("item", PyVal.dict item)] k s rv hm hrv hnn⟩

/-- C5, witness: three elements with ids `a`, `b`, `c` and a name template
expanding to `device_<id>` produce exactly three entities, in order, named
`device_a`, `device_b`, `device_c`. -/
theorem claimC5_witness :
    (∃ es, _process_for_each_config hostC5 elemsC5 tmplC5 = Except.ok es
      ∧ es.length = elemsC5.length
      ∧ (∀ i (h1 : i < es.length) (h2 : i < elemsC5.length),
          Except.ok (es.get ⟨i, h1⟩) = _create_entity_from_config
            (_process_template_config hostC5 tmplC5
              [("item", PyVal.dict (elemsC5.get ⟨i, h2⟩))])
            (dictGet (elemsC5.get ⟨i, h2⟩) "device_id"))
      ∧ (∀ item : PyDict, ∀ k v, (k, v) ∈ tmplC5 → (∀ s, v ≠ PyVal.str s) →
          (k, v) ∈ _process_template_config hostC5 tmplC5 [("item", PyVal.dict item)])
      ∧ (∀ item : PyDict, ∀ k s rv, (k, PyVal.str s) ∈ tmplC5 →
          _render_template_value hostC5 s [("item", PyVal.dict item)] = rv →
          rvIsNone rv = false →
          (k, rv) ∈ _process_template_config hostC5 tmplC5 [("item", PyVal.dict item)]))
    ∧ (match _process_for_each_config hostC5 elemsC5 tmplC5 with
       | Except.ok es => es.map (fun e => e._attr_name)
       | Except.error _ => [])
      = [some (PyVal.str "device_a"), some (PyVal.str "device_b"),
         some (PyVal.str "device_c")] :=
  ⟨claimC5 hostC5 elemsC5 tmplC5 (by decide), rfl⟩

/-- C6: for an entity whose configuration carries no `availability` key,
the `available` property is `True` for every host state. -/
theorem claimC6 (cfg : PyDict) (e : TemplateUpdateEntity) (host : Host)
    (hna : dictMem cfg "availability" = false)
    (h : TemplateUpdateEntity.init cfg = Except.ok e) :
    TemplateUpdateEntity.available e host = Except.ok true := by
  obtain ⟨-, -, -, hav⟩ := init_ok_fields cfg e h
  have h2 : config_template_opt cfg "availability" = Option.none := by
    unfold config_template_opt
    rw [dictGet_eq_none_of_not_mem cfg "availability" hna]
  unfold TemplateUpdateEntity.available
  rw [hav, h2]

/-- C6, witness: a concrete entity without an availability template is
available even on a host where every render fails. -/
theorem claimC6_witness :
    TemplateUpdateEntity.available (entityOf cfgC6) hostFail = Except.ok true :=
  claimC6 cfgC6 (entityOf cfgC6) hostFail rfl rfl

/-- C7: whenever the recursive render of the install action's data mapping
yields a value that is not a dict, `async_install` performs no service
dispatch, whatever happens at the other stages. -/
theorem claimC7 (e : TemplateUpdateEntity) (host : Host) (version : Option String)
    (sb : Bool) (kwargs : PyDict) (d : PyDict) (rd : PyVal)
    (hia : dictGet e._config "install_action" = some (PyVal.dict d))
    (hrd : _render_dict_templates host ((dictGet d "data").getD (PyVal.dict []))
        = Except.ok rd)
    (hnd : ∀ xs : PyDict, rd ≠ PyVal.dict xs) :
    dispatchedCall (async_install e host version sb kwargs) = Option.none := by
  cases hav : dictGet d "action" with
  | none =>
    rw [async_install_subscript_keyError e host version sb kwargs d hia hav]
    rfl
  | some av =>
    cases hrender : _render_template host av with
    | error ex =>
      rw [async_install_render_raises e host version sb kwargs d av ex hia hav hrender]
      rfl
    | ok act =>
      cases htruthy : pyTruthy act with
      | false =>
        rw [async_install_falsy_action e host version sb kwargs d av act
          hia hav hrender htruthy]
        rfl
      | true =>
        rw [async_install_nondict_data e host version sb kwargs d av act rd
          hia hav hrender htruthy hrd hnd]
        rfl

/-- C7, witness: a concrete install action whose `data` renders to the
string `"notadict"` dispatches nothing. -/
theorem claimC7_witness :
    dispatchedCall (async_install (entityOf cfgC7) hostC7 (some "1") true [])
      = Option.none :=
  claimC7 (entityOf cfgC7) hostC7 (some "1") true []
    [("action", PyVal.str "ACT7_T"), ("data", PyVal.str "DATA7_T")]
    (PyVal.str "notadict") rfl rfl (fun _ h => PyVal.noConfusion h)

/-- C8, counterexample: a rendering failure on the `installed_version`
field of a for-each entity template omits that field, after which entity
construction raises `ValueError` — the expansion aborts with no entity
created for the element, instead of still creating one. -/
theorem claimC8_counterexample :
    _process_for_each_config hostC8 elemsC8 tmplC8
      = Except.error PyExc.valueError := rfl

/-- C8, amended: a rendering failure on a string field omits only that
field (every other non-string field is still present) and field processing
continues; the element's entity is still created when both required
version fields survive in the processed configuration, but when the failed
field is `installed_version` or `latest_version` entity construction
raises, aborting the expansion. -/
theorem claimC8_amended (host : Host) (tmpl vars : PyDict) (k s : String) (ex : PyExc)
    (hmem : (k, PyVal.str s) ∈ tmpl)
    (hnd : (tmpl.map Prod.fst).Nodup)
    (hfail : host.render s vars = Except.error ex) :
    dictMem (_process_template_config host tmpl vars) k = false
    ∧ (∀ k2 v2, (k2, v2) ∈ tmpl → (∀ s2, v2 ≠ PyVal.str s2) →
        (k2, v2) ∈ _process_template_config host tmpl vars)
    ∧ ((k = "installed_version" ∨ k = "latest_version") → ∀ item_id,
        exOk (_create_entity_from_config
          (_process_template_config host tmpl vars) item_id) = false)
    ∧ (dictMem (_process_template_config host tmpl vars) "installed_version" = true →
        dictMem (_process_template_config host tmpl vars) "latest_version" = true →
        ∀ item_id, exOk (_create_entity_from_config
          (_process_template_config host tmpl vars) item_id) = true) := by
  have hnone : rvIsNone (_render_template_value host s vars) = true := by
    unfold _render_template_value
    rw [hfail]
    rfl
  have homit := ptc_not_mem_of_render_none host vars k s hnone tmpl hmem hnd
  refine ⟨homit, ?_, ?_, ?_⟩
  · exact fun k2 v2 hm hns => ptc_mem_nonstr host tmpl vars k2 v2 hm hns
  · intro hreq item_id
    rw [create_entity_isOk_eq]
    rcases hreq with rfl | rfl
    · rw [homit]
      rfl
    · rw [homit]
      cases dictMem (_process_template_config host tmpl vars) "installed_version" <;> rfl
  · intro hiv hlv item_id
    rw [create_entity_isOk_eq, hiv, hlv]
    rfl

/-- C8, witness: with a failing `release_notes` template and healthy
required templates, the field is omitted, the other fields survive, and
the entity is still created. -/
theorem claimC8_witness :
    dictMem (_process_template_config hostC8b tmplC8b []) "release_notes" = false
    ∧ (∀ k2 v2, (k2, v2) ∈ tmplC8b → (∀ s2, v2 ≠ PyVal.str s2) →
        (k2, v2) ∈ _process_template_config hostC8b tmplC8b [])
    ∧ (("release_notes" = "installed_version" ∨ "release_notes" = "latest_version") →
        ∀ item_id, exOk (_create_entity_from_config
          (_process_template_config hostC8b tmplC8b []) item_id) = false)
    ∧ (dictMem (_process_template_config hostC8b tmplC8b []) "installed_version" = true →
        dictMem (_process_template_config hostC8b tmplC8b []) "latest_version" = true →
        ∀ item_id, exOk (_create_entity_from_config
          (_process_template_config hostC8b tmplC8b []) item_id) = true) :=
  claimC8_amended hostC8b tmplC8b [] "release_notes" "BAD8_T" PyExc.templateError
    (List.mem_cons_self _ _) (by decide) rfl

/-- C9: when the install action dispatches, the payload is the dict
`{"version": version, "backup": should_backup}` updated with the extra
parameters and then with the rendered `install_action` data, so on any key
collision the rendered data value wins. -/
theorem claimC9 (e : TemplateUpdateEntity) (host : Host) (version : Option String)
    (sb : Bool) (kwargs : PyDict) (d : PyDict) (av : PyVal) (s : String)
    (rdd : PyDict) (dom srv : String)
    (hia : dictGet e._config "install_action" = some (PyVal.dict d))
    (hav : dictGet d "action" = some av)
    (hrender : _render_template host av = Except.ok (PyVal.str s))
    (htruthy : pyTruthy (PyVal.str s) = true)
    (hdata : _render_dict_templates host ((dictGet d "data").getD (PyVal.dict []))
        = Except.ok (PyVal.dict rdd))
    (hsplit : splitOnce s = some (dom, srv))
    (hnodup : (rdd.map Prod.fst).Nodup) :
    dispatchedCall (async_install e host version sb kwargs)
      = some (dom, srv, dictUpdate (dictUpdate
          [("version", pyOfVersion version), ("backup", PyVal.bool sb)] kwargs) rdd)
    ∧ (∀ k2, dictMem rdd k2 = true →
        dictGet (dictUpdate (dictUpdate
          [("version", pyOfVersion version), ("backup", PyVal.bool sb)] kwargs) rdd) k2
          = dictGet rdd k2) := by
  constructor
  · rw [async_install_past_checks e host version sb kwargs d av s rdd
      hia hav hrender htruthy hdata, hsplit]
    dsimp only
    cases host.dispatchResult dom srv (dictUpdate (dictUpdate
        [("version", pyOfVersion version), ("backup", PyVal.bool sb)] kwargs) rdd) with
    | none => rfl
    | some ex => rfl
  · intro k2 hk2
    exact dictUpdate_get_of_mem rdd k2 hnodup hk2 _

/-- C9, witness: a rendered data entry `backup: "never"` overwrites the
caller's `backup` value in the dispatched payload. -/
theorem claimC9_witness :
    dispatchedCall (async_install (entityOf cfgC9) hostC9 (some "3.0") true [])
      = some ("dom", "srv", dictUpdate (dictUpdate
          [("version", pyOfVersion (some "3.0")), ("backup", PyVal.bool true)] [])
          [("backup", PyVal.str "never")])
    ∧ (∀ k2, dictMem [("backup", PyVal.str "never")] k2 = true →
        dictGet (dictUpdate (dictUpdate
          [("version", pyOfVersion (some "3.0")), ("backup", PyVal.bool true)] [])
          [("backup", PyVal.str "never")]) k2
          = dictGet [("backup", PyVal.str "never")] k2) :=
  claimC9 (entityOf cfgC9) hostC9 (some "3.0") true []
    [("action", PyVal.str "ACT9_T"), ("data", PyVal.dict [("backup", PyVal.str "B9_T")])]
    (PyVal.str "ACT9_T") "dom.srv" [("backup", PyVal.str "never")] "dom" "srv"
    rfl rfl rfl rfl rfl rfl (by decide)

/-- C10: the unique id assigned at construction is the `name` configuration
value, so it equals the name attribute; both are `None` when no name is
configured, and two entities constructed with the same name value share the
same unique id. -/
theorem claimC10 (cfg : PyDict) (e : TemplateUpdateEntity)
    (h : TemplateUpdateEntity.init cfg = Except.ok e) :
    e._attr_unique_id = e._attr_name
    ∧ e._attr_name = dictGet cfg "name"
    ∧ (dictGet cfg "name" = Option.none →
        e._attr_name = Option.none ∧ e._attr_unique_id = Option.none)
    ∧ (∀ cfg2 e2, TemplateUpdateEntity.init cfg2 = Except.ok e2 →
        dictGet cfg2 "name" = dictGet cfg "name" →
        e2._attr_unique_id = e._attr_unique_id) := by
  obtain ⟨-, hn, hu, -⟩ := init_ok_fields cfg e h
  refine ⟨by rw [hn, hu], hn, ?_, ?_⟩
  · intro h2
    exact ⟨by rw [hn, h2], by rw [hu, h2]⟩
  · intro cfg2 e2 h3 h4
    obtain ⟨-, -, hu2, -⟩ := init_ok_fields cfg2 e2 h3
    rw [hu, hu2, h4]

/-- C10, witness: on a concrete named configuration the conclusion holds. -/
theorem claimC10_witness :
    (entityOf cfgC10)._attr_unique_id = (entityOf cfgC10)._attr_name
    ∧ (entityOf cfgC10)._attr_name = dictGet cfgC10 "name"
    ∧ (dictGet cfgC10 "name" = Option.none →
        (entityOf cfgC10)._attr_name = Option.none
        ∧ (entityOf cfgC10)._attr_unique_id = Option.none)
    ∧ (∀ cfg2 e2, TemplateUpdateEntity.init cfg2 = Except.ok e2 →
        dictGet cfg2 "name" = dictGet cfgC10 "name" →
        e2._attr_unique_id = (entityOf cfgC10)._attr_unique_id) :=
  claimC10 cfgC10 (entityOf cfgC10) rfl
